import Mathlib

/-!
Verification of the gcc-python-plugin wrapper/GC bridge
(`gcc-python-wrapper.c` and the tree-wrapper translation unit).

We shallowly embed the C code: wrapper objects are identified by natural
numbers (their addresses), the intrusive circular doubly-linked list kept
through the `wr_prev`/`wr_next` fields is a pair of partial link maps
(`none` models a NULL pointer), and every C `assert` is modelled as a
fatal outcome, i.e. the embedded operation returns `none`.
The sentinel node (`static struct PyGccWrapper sentinel`) is node `0`.
-/

/-- The intrusive-list fields of all `PyGccWrapper` objects: for every node
address, its `wr_next` and `wr_prev` pointers (`none` = NULL). -/
structure WrapperState where
  wr_next : Nat → Option Nat
  wr_prev : Nat → Option Nat

/-- Address of `static struct PyGccWrapper sentinel`. -/
def sentinelId : Nat := 0

/-- Write the `wr_next` field of node `a`. -/
def setNext (s : WrapperState) (a : Nat) (v : Option Nat) : WrapperState :=
  { s with wr_next := fun x => if x = a then v else s.wr_next x }

/-- Write the `wr_prev` field of node `a`. -/
def setPrev (s : WrapperState) (a : Nat) (v : Option Nat) : WrapperState :=
  { s with wr_prev := fun x => if x = a then v else s.wr_prev x }

/-- `sentinel = { ..., &sentinel, &sentinel }`: initially the list holds only
the sentinel, closed onto itself; all other nodes have uninitialized (NULL)
links. -/
def initWrapperState : WrapperState :=
  { wr_next := fun x => if x = sentinelId then some sentinelId else none,
    wr_prev := fun x => if x = sentinelId then some sentinelId else none }

/-- `gcc_python_wrapper_track`: append `obj` to the circular list immediately
before the sentinel.  The C asserts (`sentinel.wr_next`, `sentinel.wr_prev`,
`sentinel.wr_prev->wr_next == &sentinel`, and the two trailing asserts on
`obj`'s fresh links) are modelled as fatal `none` outcomes. -/
def gcc_python_wrapper_track (obj : Nat) (s : WrapperState) : Option WrapperState :=
  if (s.wr_next sentinelId).isSome && (s.wr_prev sentinelId).isSome then
    let last := (s.wr_prev sentinelId).getD 0
    if s.wr_next last == some sentinelId then
      -- sentinel.wr_prev->wr_next = obj;
      let s1 := setNext s last (some obj)
      -- obj->wr_prev = sentinel.wr_prev;
      let s2 := setPrev s1 obj (some last)
      -- obj->wr_next = &sentinel;
      let s3 := setNext s2 obj (some sentinelId)
      -- sentinel.wr_prev = obj;
      let s4 := setPrev s3 sentinelId (some obj)
      if (s4.wr_prev obj).isSome && (s4.wr_next obj).isSome then some s4 else none
    else none
  else none

/-- `gcc_python_wrapper_untrack`: splice `obj` out of the circular list using
its own links, then NULL them.  `refcnt` is `Py_REFCNT(obj)` at call time;
`assert(Py_REFCNT(obj) == 0)` and the link asserts are fatal `none` outcomes.
(The C statement `obj->wr_next->wr_prev = obj->wr_prev` re-reads `obj`'s
fields after the first splice store; those re-reads provably yield the same
values as the initial reads, so we read them once.) -/
def gcc_python_wrapper_untrack (refcnt : Nat) (obj : Nat) (s : WrapperState) :
    Option WrapperState :=
  if refcnt = 0 then
    if (s.wr_next sentinelId).isSome && (s.wr_prev sentinelId).isSome
        && (s.wr_prev obj).isSome && (s.wr_next obj).isSome then
      let pv := (s.wr_prev obj).getD 0
      let nx := (s.wr_next obj).getD 0
      -- obj->wr_prev->wr_next = obj->wr_next;
      let s1 := setNext s pv (some nx)
      -- obj->wr_next->wr_prev = obj->wr_prev;
      let s2 := setPrev s1 nx (some pv)
      -- obj->wr_prev = NULL; obj->wr_next = NULL;
      let s3 := setPrev s2 obj none
      some (setNext s3 obj none)
    else none
  else none

/-- `gcc_python_wrapper_dealloc`: asserts the refcount is zero, then untracks
(the final `tp_free` call releases host memory and is not modelled). -/
def gcc_python_wrapper_dealloc (refcnt : Nat) (obj : Nat) (s : WrapperState) :
    Option WrapperState :=
  if refcnt = 0 then gcc_python_wrapper_untrack refcnt obj s else none

/-- `pathB s a l z`: starting from node `a`, the `wr_next` pointers step
through exactly the nodes of `l` and then reach `z`, with every `wr_prev`
pointer along the way inverting the corresponding `wr_next`. -/
def pathB (s : WrapperState) : Nat → List Nat → Nat → Bool
  | a, [], z => s.wr_next a == some z && s.wr_prev z == some a
  | a, b :: t, z => s.wr_next a == some b && s.wr_prev b == some a && pathB s b t z

/-- The tracker list is a well-formed circular doubly-linked list holding
exactly the (pairwise distinct, non-sentinel) proxies `l`, in order, anchored
at the sentinel. -/
def isCycle (s : WrapperState) (l : List Nat) : Prop :=
  (sentinelId :: l).Nodup ∧ pathB s sentinelId l sentinelId = true

instance (s : WrapperState) (l : List Nat) : Decidable (isCycle s l) := by
  unfold isCycle; infer_instance

theorem pathB_append (s : WrapperState) (m z : Nat) :
    ∀ (a : Nat) (l₁ l₂ : List Nat),
      pathB s a (l₁ ++ m :: l₂) z = (pathB s a l₁ m && pathB s m l₂ z) := by
  intro a l₁
  induction l₁ generalizing a with
  | nil => intro l₂; simp [pathB, Bool.and_assoc]
  | cons c t ih => intro l₂; simp [pathB, ih c, Bool.and_assoc]

theorem pathB_prev_last (s : WrapperState) :
    ∀ (l : List Nat) (a z : Nat),
      pathB s a l z = true → s.wr_prev z = some (l.getLastD a) := by
  intro l
  induction l with
  | nil => intro a z h; simp [pathB] at h; simp [h.2]
  | cons b t ih =>
    intro a z h
    simp only [pathB, Bool.and_eq_true] at h
    rw [List.getLastD_cons]
    exact ih b z h.2

theorem pathB_next_last (s : WrapperState) :
    ∀ (l : List Nat) (a z : Nat),
      pathB s a l z = true → s.wr_next (l.getLastD a) = some z := by
  intro l
  induction l with
  | nil => intro a z h; simp [pathB] at h; simp [h.1]
  | cons b t ih =>
    intro a z h
    simp only [pathB, Bool.and_eq_true] at h
    rw [List.getLastD_cons]
    exact ih b z h.2

theorem pathB_next_head (s : WrapperState) (l : List Nat) (a z : Nat)
    (h : pathB s a l z = true) : s.wr_next a = some (l.headD z) := by
  cases l with
  | nil => simp [pathB] at h; simp [h.1]
  | cons b t =>
    simp only [pathB, Bool.and_eq_true] at h
    simpa using h.1.1

theorem pathB_congr (s s' : WrapperState) :
    ∀ (l : List Nat) (a z : Nat),
      (∀ x ∈ a :: l, s'.wr_next x = s.wr_next x) →
      (∀ x ∈ l ++ [z], s'.wr_prev x = s.wr_prev x) →
      pathB s' a l z = pathB s a l z := by
  intro l
  induction l with
  | nil =>
    intro a z hn hp
    simp [pathB, hn a (by simp), hp z (by simp)]
  | cons b t ih =>
    intro a z hn hp
    have hrec := ih b z
      (fun x hx => hn x (List.mem_cons_of_mem a hx))
      (fun x hx => hp x (by simpa using Or.inr (by simpa using hx)))
    simp [pathB, hn a (by simp), hp b (by simp), hrec]

theorem track_eq (s : WrapperState) (p L : Nat)
    (h1 : (s.wr_next sentinelId).isSome = true)
    (hprev : s.wr_prev sentinelId = some L)
    (h2 : s.wr_next L = some sentinelId) :
    gcc_python_wrapper_track p s =
      some { wr_next := fun x =>
               if x = p then some sentinelId else if x = L then some p else s.wr_next x,
             wr_prev := fun x =>
               if x = sentinelId then some p else if x = p then some L else s.wr_prev x } := by
  rw [gcc_python_wrapper_track, hprev]
  simp [setNext, setPrev, h1, h2]
  split <;> simp

theorem track_pathB (s : WrapperState) (l : List Nat) (p : Nat)
    (hnd : (sentinelId :: l).Nodup) (hpath : pathB s sentinelId l sentinelId = true)
    (hp0 : p ≠ sentinelId) (hpl : p ∉ l) :
    pathB
      { wr_next := fun x =>
          if x = p then some sentinelId
          else if x = l.getLastD sentinelId then some p else s.wr_next x,
        wr_prev := fun x =>
          if x = sentinelId then some p
          else if x = p then some (l.getLastD sentinelId) else s.wr_prev x }
      sentinelId (l ++ [p]) sentinelId = true := by
  rcases List.eq_nil_or_concat l with rfl | ⟨l', a, rfl⟩
  · simp [pathB, hp0, Ne.symm hp0]
  · simp only [List.concat_eq_append] at *
    have h0l : sentinelId ∉ l' ++ [a] := (List.nodup_cons.mp hnd).1
    have h0l' : sentinelId ∉ l' := fun h => h0l (by simp [h])
    have h0a : sentinelId ≠ a := fun h => h0l (by simp [h])
    have hal' : a ∉ sentinelId :: l' := by
      have := hnd
      rw [show sentinelId :: (l' ++ [a]) = (sentinelId :: l') ++ a :: [] by simp,
        List.nodup_middle] at this
      simpa using (List.nodup_cons.mp this).1
    have hpl' : p ∉ l' := fun h => hpl (by simp [h])
    have hpa : p ≠ a := fun h => hpl (by simp [h])
    rw [show l' ++ [a] = l' ++ a :: [] from rfl, pathB_append, Bool.and_eq_true] at hpath
    obtain ⟨hleft, hend⟩ := hpath
    simp only [pathB, Bool.and_eq_true, beq_iff_eq] at hend
    rw [show (l' ++ [a]) ++ [p] = l' ++ a :: [p] by simp, pathB_append, Bool.and_eq_true]
    constructor
    · rw [pathB_congr]
      · exact hleft
      · intro x hx
        have hxp : x ≠ p := by
          rintro rfl
          rcases List.mem_cons.mp hx with h | h
          · exact hp0 h
          · exact hpl' h
        have hxa : x ≠ a := by
          rintro rfl
          exact hal' hx
        simp [hxp, hxa]
      · intro x hx
        have hx' : x ∈ l' ++ [a] := by
          rcases List.mem_append.mp hx with h | h
          · exact List.mem_append.mpr (Or.inl h)
          · simp at h
            exact List.mem_append.mpr (Or.inr (by simp [h]))
        have hx0 : x ≠ sentinelId := fun h => h0l (h ▸ hx')
        have hxp : x ≠ p := fun h => hpl (h ▸ hx')
        simp [hx0, hxp]
    · simp [pathB, List.getLastD_concat, hp0, Ne.symm hp0, hpa, Ne.symm hpa]

theorem track_isCycle (s : WrapperState) (l : List Nat) (p : Nat)
    (hc : isCycle s l) (hp0 : p ≠ sentinelId) (hpl : p ∉ l) :
    ∃ s', gcc_python_wrapper_track p s = some s' ∧ isCycle s' (l ++ [p]) := by
  obtain ⟨hnd, hpath⟩ := hc
  have hprev0 : s.wr_prev sentinelId = some (l.getLastD sentinelId) :=
    pathB_prev_last s l sentinelId sentinelId hpath
  have hnextL : s.wr_next (l.getLastD sentinelId) = some sentinelId :=
    pathB_next_last s l sentinelId sentinelId hpath
  have hnext0 : (s.wr_next sentinelId).isSome = true := by
    rw [pathB_next_head s l sentinelId sentinelId hpath]; rfl
  refine ⟨_, track_eq s p (l.getLastD sentinelId) hnext0 hprev0 hnextL, ?_, ?_⟩
  · rw [show sentinelId :: (l ++ [p]) = (sentinelId :: l) ++ p :: [] by simp,
      List.nodup_middle]
    simp only [List.append_nil]
    exact List.nodup_cons.mpr ⟨by simp [hp0, hpl], hnd⟩
  · exact track_pathB s l p hnd hpath hp0 hpl

theorem untrack_eq (s : WrapperState) (p pv nx : Nat)
    (h1 : (s.wr_next sentinelId).isSome = true)
    (h2 : (s.wr_prev sentinelId).isSome = true)
    (hpv : s.wr_prev p = some pv) (hnx : s.wr_next p = some nx) :
    gcc_python_wrapper_untrack 0 p s =
      some { wr_next := fun x =>
               if x = p then none else if x = pv then some nx else s.wr_next x,
             wr_prev := fun x =>
               if x = p then none else if x = nx then some pv else s.wr_prev x } := by
  rw [gcc_python_wrapper_untrack]
  simp [setNext, setPrev, h1, h2, hpv, hnx]

theorem untrack_left (s : WrapperState) (l₁ : List Nat) (p B : Nat)
    (hP1 : pathB s sentinelId l₁ p = true)
    (h0l₁ : sentinelId ∉ l₁) (hpl₁ : p ∉ l₁) (hndl₁ : l₁.Nodup)
    (h0p : sentinelId ≠ p) (hBp : B ≠ p) (hBl₁ : B ∉ l₁) :
    pathB
      { wr_next := fun x =>
          if x = p then none
          else if x = l₁.getLastD sentinelId then some B else s.wr_next x,
        wr_prev := fun x =>
          if x = p then none
          else if x = B then some (l₁.getLastD sentinelId) else s.wr_prev x }
      sentinelId l₁ B = true := by
  rcases List.eq_nil_or_concat l₁ with rfl | ⟨l₁', a, rfl⟩
  · simp [pathB, h0p, hBp]
  · simp only [List.concat_eq_append] at *
    have ha1 : a ∉ l₁' := by
      have hh := hndl₁
      rw [show l₁' ++ [a] = l₁' ++ a :: [] from rfl, List.nodup_middle,
        List.nodup_cons] at hh
      intro h
      exact hh.1 (by simp [h])
    have ha0 : a ≠ sentinelId := fun h => h0l₁ (by simp [← h])
    have hal₁' : a ∉ sentinelId :: l₁' := by
      intro hmem
      rcases List.mem_cons.mp hmem with h | h
      · exact ha0 h
      · exact ha1 h
    have hpa : p ≠ a := fun h => hpl₁ (by simp [h])
    have hBa : B ≠ a := fun h => hBl₁ (by simp [h])
    rw [show l₁' ++ [a] = l₁' ++ a :: [] from rfl, pathB_append, Bool.and_eq_true] at hP1
    obtain ⟨hleft, hmid⟩ := hP1
    rw [show l₁' ++ [a] = l₁' ++ a :: [] from rfl, pathB_append, Bool.and_eq_true]
    constructor
    · rw [pathB_congr]
      · exact hleft
      · intro x hx
        have hxp : x ≠ p := by
          rintro rfl
          rcases List.mem_cons.mp hx with h | h
          · exact h0p h.symm
          · exact hpl₁ (by simp [h])
        have hxa : x ≠ a := by rintro rfl; exact hal₁' hx
        simp [hxp, hxa, List.getLastD_concat]
      · intro x hx
        have hx' : x ∈ l₁' ++ [a] := by simpa using hx
        have hx0 : x ≠ sentinelId := fun h => h0l₁ (h ▸ hx')
        have hxp : x ≠ p := fun h => hpl₁ (h ▸ hx')
        have hxB : x ≠ B := fun h => hBl₁ (h ▸ hx')
        simp [hx0, hxp, hxB]
    · simp [pathB, List.getLastD_concat, hpa, Ne.symm hpa, hBa, hBp]

theorem untrack_pathB (s : WrapperState) (l₁ l₂ : List Nat) (p : Nat)
    (hnd : (sentinelId :: (l₁ ++ p :: l₂)).Nodup)
    (hpath : pathB s sentinelId (l₁ ++ p :: l₂) sentinelId = true) :
    pathB
      { wr_next := fun x =>
          if x = p then none
          else if x = l₁.getLastD sentinelId then some (l₂.headD sentinelId)
          else s.wr_next x,
        wr_prev := fun x =>
          if x = p then none
          else if x = l₂.headD sentinelId then some (l₁.getLastD sentinelId)
          else s.wr_prev x }
      sentinelId (l₁ ++ l₂) sentinelId = true := by
  have hnod := hnd
  rw [List.nodup_cons] at hnod
  obtain ⟨h0mem, hnod1⟩ := hnod
  have h0l₁ : sentinelId ∉ l₁ := fun h => h0mem (by simp [h])
  have h0l₂ : sentinelId ∉ l₂ := fun h => h0mem (by simp [h])
  have h0p : sentinelId ≠ p := fun h => h0mem (by simp [h])
  rw [List.nodup_middle, List.nodup_cons] at hnod1
  obtain ⟨hpmem, hnod2⟩ := hnod1
  have hpl₁ : p ∉ l₁ := fun h => hpmem (List.mem_append.mpr (Or.inl h))
  have hpl₂ : p ∉ l₂ := fun h => hpmem (List.mem_append.mpr (Or.inr h))
  obtain ⟨hndl₁, hndl₂, hdisj⟩ := List.nodup_append.mp hnod2
  rw [pathB_append, Bool.and_eq_true] at hpath
  obtain ⟨hP1, hP2⟩ := hpath
  cases l₂ with
  | nil =>
    simp only [List.headD_nil, List.append_nil]
    exact untrack_left s l₁ p sentinelId hP1 h0l₁ hpl₁ hndl₁ h0p h0p h0l₁
  | cons b t =>
    simp only [pathB, Bool.and_eq_true, beq_iff_eq] at hP2
    obtain ⟨⟨hpb, hbp⟩, hP2'⟩ := hP2
    simp only [List.headD_cons]
    have hbl₁ : b ∉ l₁ := fun h => hdisj h (by simp)
    have hb0 : b ≠ sentinelId := fun h => h0l₂ (h ▸ (by simp : b ∈ b :: t))
    have hbp' : b ≠ p := fun h => hpl₂ (h ▸ (by simp : b ∈ b :: t))
    have hbt : b ∉ t := (List.nodup_cons.mp hndl₂).1
    rw [pathB_append, Bool.and_eq_true]
    refine ⟨untrack_left s l₁ p b hP1 h0l₁ hpl₁ hndl₁ h0p hbp' hbl₁, ?_⟩
    rw [pathB_congr]
    · exact hP2'
    · intro x hx
      have hx' : x ∈ b :: t := hx
      have hxp : x ≠ p := fun h => hpl₂ (h ▸ hx')
      have hxa : x ≠ l₁.getLastD sentinelId := by
        have hmem := List.getLastD_mem_cons l₁ sentinelId
        rintro rfl
        rcases List.mem_cons.mp hmem with h | h
        · exact h0l₂ (h ▸ hx')
        · exact hdisj h hx'
      rw [List.getLastD_eq_getLast?] at hxa
      simp [hxp, hxa]
    · intro x hx
      have hxp : x ≠ p := by
        rintro rfl
        rcases List.mem_append.mp hx with h | h
        · exact hpl₂ (by simp [h])
        · simp at h
          exact h0p h.symm
      have hxb : x ≠ b := by
        rintro rfl
        rcases List.mem_append.mp hx with h | h
        · exact hbt h
        · simp at h
          exact hb0 h
      simp [hxp, hxb]

theorem untrack_isCycle (s : WrapperState) (l : List Nat) (p : Nat)
    (hc : isCycle s l) (hp : p ∈ l) :
    ∃ s', gcc_python_wrapper_untrack 0 p s = some s' ∧ isCycle s' (l.erase p) := by
  obtain ⟨hnd, hpath⟩ := hc
  obtain ⟨l₁, l₂, rfl⟩ := List.append_of_mem hp
  have hpl₁ : p ∉ l₁ := by
    have h := hnd
    rw [List.nodup_cons] at h
    have h1 := h.2
    rw [List.nodup_middle, List.nodup_cons] at h1
    exact fun hmem => h1.1 (List.mem_append.mpr (Or.inl hmem))
  have herase : (l₁ ++ p :: l₂).erase p = l₁ ++ l₂ := by
    rw [List.erase_append_right _ hpl₁, List.erase_cons_head]
  have hprev0 : (s.wr_prev sentinelId).isSome = true := by
    rw [pathB_prev_last s (l₁ ++ p :: l₂) sentinelId sentinelId hpath]; rfl
  have hnext0 : (s.wr_next sentinelId).isSome = true := by
    rw [pathB_next_head s (l₁ ++ p :: l₂) sentinelId sentinelId hpath]; rfl
  have hsplit := hpath
  rw [pathB_append, Bool.and_eq_true] at hsplit
  obtain ⟨hP1, hP2⟩ := hsplit
  have hpv : s.wr_prev p = some (l₁.getLastD sentinelId) :=
    pathB_prev_last s l₁ sentinelId p hP1
  have hnx : s.wr_next p = some (l₂.headD sentinelId) :=
    pathB_next_head s l₂ p sentinelId hP2
  refine ⟨_,
    untrack_eq s p (l₁.getLastD sentinelId) (l₂.headD sentinelId)
      hnext0 hprev0 hpv hnx, ?_, ?_⟩
  · rw [herase]
    have h := hnd
    rw [show sentinelId :: (l₁ ++ p :: l₂) = (sentinelId :: l₁) ++ p :: l₂ from rfl,
      List.nodup_middle, List.nodup_cons] at h
    exact h.2
  · rw [herase]
    exact untrack_pathB s l₁ l₂ p hnd hpath

/-- A lifecycle event on the tracker: a proxy is constructed (tracked via
`_PyGccWrapper_New`) or destroyed (refcount reached zero, untracked via
`gcc_python_wrapper_dealloc`). -/
inductive TrackerEvent where
  | track (p : Nat)
  | untrack (p : Nat)
deriving DecidableEq

/-- Run a sequence of lifecycle events against the tracker state; an
assertion failure anywhere aborts the run. -/
def applyEvents : List TrackerEvent → WrapperState → Option WrapperState
  | [], s => some s
  | TrackerEvent.track p :: r, s =>
    (gcc_python_wrapper_track p s).bind (applyEvents r)
  | TrackerEvent.untrack p :: r, s =>
    (gcc_python_wrapper_untrack 0 p s).bind (applyEvents r)

/-- The proxies that have been tracked and not yet untracked, in insertion
order, after processing the events starting from live list `live`. -/
def liveAfter : List TrackerEvent → List Nat → List Nat
  | [], live => live
  | TrackerEvent.track p :: r, live => liveAfter r (live ++ [p])
  | TrackerEvent.untrack p :: r, live => liveAfter r (live.erase p)

/-- Event well-formedness: a tracked proxy is a fresh non-sentinel node and
an untracked proxy is currently live (the host runtime guarantees both:
tracking happens once per freshly allocated object, untracking once at
destruction). -/
def wfEvents : List TrackerEvent → List Nat → Bool
  | [], _ => true
  | TrackerEvent.track p :: r, live =>
    !(p == sentinelId) && !(live.elem p) && wfEvents r (live ++ [p])
  | TrackerEvent.untrack p :: r, live =>
    live.elem p && wfEvents r (live.erase p)

theorem applyEvents_isCycle :
    ∀ (es : List TrackerEvent) (live : List Nat) (s : WrapperState),
      isCycle s live → wfEvents es live = true →
      ∃ s', applyEvents es s = some s' ∧ isCycle s' (liveAfter es live) := by
  intro es
  induction es with
  | nil =>
    intro live s hc _
    exact ⟨s, rfl, hc⟩
  | cons e r ih =>
    intro live s hc hwf
    cases e with
    | track p =>
      rw [wfEvents, Bool.and_eq_true, Bool.and_eq_true] at hwf
      obtain ⟨⟨hp0, hpl⟩, hr⟩ := hwf
      have hp0' : p ≠ sentinelId := by simpa using hp0
      have hpl' : p ∉ live := by
        intro h
        rw [List.elem_iff.mpr h] at hpl
        simp at hpl
      obtain ⟨s1, hs1, hc1⟩ := track_isCycle s live p hc hp0' hpl'
      obtain ⟨s2, hs2, hc2⟩ := ih (live ++ [p]) s1 hc1 hr
      exact ⟨s2, by simp [applyEvents, hs1, hs2], hc2⟩
    | untrack p =>
      rw [wfEvents, Bool.and_eq_true] at hwf
      obtain ⟨hpl, hr⟩ := hwf
      have hpl' : p ∈ live := List.elem_iff.mp hpl
      obtain ⟨s1, hs1, hc1⟩ := untrack_isCycle s live p hc hpl'
      obtain ⟨s2, hs2, hc2⟩ := ih (live.erase p) s1 hc1 hr
      exact ⟨s2, by simp [applyEvents, hs1, hs2], hc2⟩

/-- `PyGccWrapperTypeObject`: a heap type object extended (beyond the host
runtime's `PyHeapTypeObject` layout, whose size is `tp_basicsize` of the
metatype) with the `wrtp_mark` slot.  Marking functions are opaque foreign
procedures, identified by number; `none` models a NULL `wrtp_mark`. -/
structure PyGccWrapperTypeObject where
  tp_basicsize : Nat
  tp_base : Option Nat
  wrtp_mark : Option Nat
deriving DecidableEq

/-- The loop of `my_walker`: `for (iter = sentinel.wr_next; iter != &sentinel;
iter = iter->wr_next)`, recording for each visited wrapper the invocation
`wrtp_mark(iter)` as the pair (marking-function id, wrapper).  The
`assert(wrtp_mark)` and a NULL `wr_next` are fatal; `fuel` bounds the walk
(the C loop relies on the list being finite and cyclic). -/
def walkLoop (tyOf : Nat → PyGccWrapperTypeObject) (s : WrapperState) :
    Nat → Nat → Option (List (Nat × Nat))
  | 0, _ => none
  | fuel + 1, cur =>
    if cur = sentinelId then some []
    else
      let mark := (tyOf cur).wrtp_mark
      if mark.isSome && (s.wr_next cur).isSome then
        (walkLoop tyOf s fuel ((s.wr_next cur).getD 0)).map
          (fun rest => (mark.getD 0, cur) :: rest)
      else none

/-- `my_walker`: the mark-phase callback registered with GCC's collector.
`tyOf` gives each wrapper's type object (`Py_TYPE(iter)`). -/
def my_walker (tyOf : Nat → PyGccWrapperTypeObject) (s : WrapperState)
    (fuel : Nat) : Option (List (Nat × Nat)) :=
  if (s.wr_next sentinelId).isSome then
    walkLoop tyOf s fuel ((s.wr_next sentinelId).getD 0)
  else none

theorem walkLoop_succ (tyOf : Nat → PyGccWrapperTypeObject) (s : WrapperState)
    (fuel cur : Nat) :
    walkLoop tyOf s (fuel + 1) cur =
      if cur = sentinelId then some []
      else
        let mark := (tyOf cur).wrtp_mark
        if mark.isSome && (s.wr_next cur).isSome then
          (walkLoop tyOf s fuel ((s.wr_next cur).getD 0)).map
            (fun rest => (mark.getD 0, cur) :: rest)
        else none := rfl

theorem walkLoop_path (tyOf : Nat → PyGccWrapperTypeObject) (s : WrapperState) :
    ∀ (l : List Nat) (a : Nat),
      pathB s a l sentinelId = true → a ≠ sentinelId → sentinelId ∉ l →
      (∀ x ∈ a :: l, ((tyOf x).wrtp_mark).isSome = true) →
      walkLoop tyOf s (l.length + 2) a =
        some ((a :: l).map (fun x => (((tyOf x).wrtp_mark).getD 0, x))) := by
  intro l
  induction l with
  | nil =>
    intro a hpath ha h0 hm
    simp only [pathB, Bool.and_eq_true, beq_iff_eq] at hpath
    have hma := hm a (by simp)
    simp [walkLoop, ha, hma, hpath.1]
  | cons b t ih =>
    intro a hpath ha h0 hm
    simp only [pathB, Bool.and_eq_true, beq_iff_eq] at hpath
    obtain ⟨⟨hab, hba⟩, hrest⟩ := hpath
    have hb0 : b ≠ sentinelId := fun h => h0 (by simp [h])
    have h0t : sentinelId ∉ t := fun h => h0 (by simp [h])
    have hrec := ih b hrest hb0 h0t
      (fun x hx => hm x (List.mem_cons_of_mem a hx))
    have hma := hm a (by simp)
    rw [show (b :: t).length + 2 = t.length + 2 + 1 by simp [List.length_cons]]
    rw [walkLoop_succ, if_neg ha]
    simp [hma, hab, hrec]

/-- The host runtime's core type constructor `PyType_Type.tp_new`, called by
the metatype's `tp_new` override (an external collaborator: CPython).  It
produces a fresh heap type whose `tp_base` is the declared parent and whose
trailing `wrtp_mark` slot, not being a slot `PyType_Type` knows about, is
left zero-initialized (NULL). -/
def pyType_Type_tp_new (env : Nat → PyGccWrapperTypeObject) (baseId : Nat) :
    PyGccWrapperTypeObject :=
  { tp_basicsize := (env baseId).tp_basicsize
    tp_base := some baseId
    wrtp_mark := none }

/-- `gcc_python_wrapper_meta_tp_new`: the metatype's `tp_new`.  `env` maps
type-object ids to type objects, `baseId` is the declared parent
(`new_type->tp_base`), `newId` the id the created type is stored under.
`metaBasicsize` is `Py_TYPE(new_type)->tp_basicsize` and `wrapperTypeSize`
is `sizeof(PyGccWrapperTypeObject)`; the function asserts
`metaBasicsize >= wrapperTypeSize` (fatal `none`), then copies `wrtp_mark`
down from the declared parent — with no check that the parent has one. -/
def gcc_python_wrapper_meta_tp_new (metaBasicsize wrapperTypeSize : Nat)
    (env : Nat → PyGccWrapperTypeObject) (baseId newId : Nat) :
    Option (Nat → PyGccWrapperTypeObject) :=
  let new_type := pyType_Type_tp_new env baseId
  if metaBasicsize < wrapperTypeSize then none
  else
    -- Inherit wrtp_mark:
    let new_type := { new_type with wrtp_mark := (env baseId).wrtp_mark }
    some (fun x => if x = newId then new_type else env x)

/-- The Canonical Proxy Cache state: `entries` maps a foreign handle to the
proxy id cached for it; `nextId` supplies fresh proxy ids for newly
constructed proxies. -/
structure CacheState where
  entries : Nat → Option Nat
  nextId : Nat

/-- Modelled from the spec: `gcc_python_lazily_create_wrapper`, the Canonical
Proxy Cache's `get_or_create`, is declared in the repository's headers and
called by `gcc_python_make_wrapper_tree`, but its definition is not among the
provided sources.  Per spec §4.1: a null identity resolves to the host's
"no value" sentinel (modelled as `none`, no proxy); a cache hit returns the
cached proxy; a miss constructs a fresh proxy and stores it keyed by the
identity.  Handle `0` is the null identity. -/
def gcc_python_lazily_create_wrapper (c : CacheState) (h : Nat) :
    Option Nat × CacheState :=
  if h = 0 then (none, c)
  else
    match c.entries h with
    | some p => (some p, c)
    | none =>
      (some c.nextId,
       { entries := fun x => if x = h then some c.nextId else c.entries x
         nextId := c.nextId + 1 })

/-- `gcc_python_make_wrapper_tree`: delegates to the cache
(`gcc_python_lazily_create_wrapper` with `real_make_tree_wrapper` as the
construction callback). -/
def gcc_python_make_wrapper_tree (c : CacheState) (t : Nat) :
    Option Nat × CacheState :=
  gcc_python_lazily_create_wrapper c t

/-- A `PyGccTree` proxy: `t` is the wrapped `tree` pointer (a foreign node
handle).  Handle `0` is the NULL tree. -/
structure PyGccTree where
  t : Nat
deriving DecidableEq

/-- `gcc_Tree_hash`: `return (long)self->t;` — the handle value itself. -/
def gcc_Tree_hash (self : PyGccTree) : Int :=
  Int.ofNat self.t

/-- The comparison operators the host runtime can pass to `tp_richcompare`. -/
inductive PyCmpOp where
  | lt | le | eq | ne | gt | ge
deriving DecidableEq

/-- An argument to `gcc_Tree_richcompare`: either an instance of
`gcc_TreeType` (or a subtype — `PyObject_TypeCheck` accepts both), or any
other host object. -/
inductive PyObjModel where
  | tree (o : PyGccTree)
  | nonTree (id : Nat)
deriving DecidableEq

/-- Result of a rich comparison: a boolean, or Py_NotImplemented (the host
runtime then falls back to the other operand / default identity compare). -/
inductive PyRichResult where
  | notImplemented
  | pyBool (b : Bool)
deriving DecidableEq

/-- `gcc_Tree_richcompare`: NotImplemented unless both operands type-check as
trees and the op is EQ or NE; EQ/NE compare the wrapped handles only. -/
def gcc_Tree_richcompare (o1 o2 : PyObjModel) (op : PyCmpOp) : PyRichResult :=
  match o1 with
  | PyObjModel.nonTree _ => PyRichResult.notImplemented
  | PyObjModel.tree t1 =>
    match o2 with
    | PyObjModel.nonTree _ => PyRichResult.notImplemented
    | PyObjModel.tree t2 =>
      match op with
      | PyCmpOp.eq => PyRichResult.pyBool (t1.t == t2.t)
      | PyCmpOp.ne => PyRichResult.pyBool (t1.t != t2.t)
      | _ => PyRichResult.notImplemented

/-- Result of `real_make_tree_wrapper`: Py_None, a constructed proxy (with
the type id chosen by the type-resolution table), a NULL return (allocation
failure), or a fatal assertion. -/
inductive MakeWrapperResult where
  | pyNone
  | obj (tyId : Nat) (o : PyGccTree)
  | nullErr
  | fatal
deriving DecidableEq

/-- `real_make_tree_wrapper`: NULL tree resolves to Py_None; otherwise the
type is resolved via `gcc_python_autogenerated_tree_type_for_tree`
(parameter `typeFor`, an autogenerated table not in these sources;
`assert(tp)` is fatal), the object is allocated (`allocOk` models
`PyObject_New` success), and the handle is stored into the proxy. -/
def real_make_tree_wrapper (typeFor : Nat → Option Nat) (allocOk : Bool)
    (t : Nat) : MakeWrapperResult :=
  if t = 0 then MakeWrapperResult.pyNone
  else
    match typeFor t with
    | none => MakeWrapperResult.fatal
    | some tyId =>
      if allocOk then MakeWrapperResult.obj tyId { t := t }
      else MakeWrapperResult.nullErr

/-- The fields of a declaration node that `gcc_Declaration_repr` reads:
`DECL_NAME` (the identifier string, absent for anonymous declarations) and
`DECL_UID`. -/
structure DeclInfo where
  declName : Option String
  declUid : Nat
deriving DecidableEq

/-- `gcc_Declaration_repr`: named declarations render via the format string
"%s(\x27%s\x27)" (type name, identifier), anonymous ones via "%s(%u)"
(type name, DECL_UID in decimal).  `getNameOk` models
`gcc_Declaration_get_name` succeeding; its failure returns NULL (`none`). -/
def gcc_Declaration_repr (tpName : String) (getNameOk : Bool) (d : DeclInfo) :
    Option String :=
  match d.declName with
  | some nm =>
    if getNameOk then some (tpName ++ "(\x27" ++ nm ++ "\x27)") else none
  | none => some (tpName ++ "(" ++ toString d.declUid ++ ")")

/-- The foreign collector state seen by `force_gcc_gc`: the
`ggc_force_collect` flag, and a log recording the flag value at each
`ggc_collect()` invocation (the collector is an opaque external system; the
log captures what the bridge observably does to it). -/
structure GgcState where
  ggc_force_collect : Bool
  collect_log : List Bool
deriving DecidableEq

/-- `ggc_collect()`: opaque foreign call; records the flag it was invoked
under. -/
def ggc_collect (g : GgcState) : GgcState :=
  { g with collect_log := g.collect_log ++ [g.ggc_force_collect] }

/-- `force_gcc_gc`: saves `ggc_force_collect`, sets it, collects, and writes
the saved value back. -/
def force_gcc_gc (g : GgcState) : GgcState :=
  let stored := g.ggc_force_collect
  let g1 := { g with ggc_force_collect := true }
  let g2 := ggc_collect g1
  { g2 with ggc_force_collect := stored }

/-- `gcc_python__force_garbage_collection`: runs `force_gcc_gc` and returns
Py_None (modelled as `Unit`). -/
def gcc_python__force_garbage_collection (g : GgcState) : Unit × GgcState :=
  ((), force_gcc_gc g)

/-- A concrete tracker state: the cycle sentinel → 1 → 2 → sentinel. -/
def exampleTrackerState : WrapperState :=
  { wr_next := fun x =>
      if x = 0 then some 1 else if x = 1 then some 2 else
      if x = 2 then some 0 else none
    wr_prev := fun x =>
      if x = 0 then some 2 else if x = 1 then some 0 else
      if x = 2 then some 1 else none }

/-- A concrete tracker state: the cycle sentinel → 1 → sentinel. -/
def oneProxyState : WrapperState :=
  { wr_next := fun x => if x = 0 then some 1 else if x = 1 then some 0 else none
    wr_prev := fun x => if x = 0 then some 1 else if x = 1 then some 0 else none }

/-- A type table whose only marking function is id 7. -/
def exampleTypeTable : Nat → PyGccWrapperTypeObject :=
  fun _ => { tp_basicsize := 1, tp_base := none, wrtp_mark := some 7 }

/-- A type table in which no type has a marking function installed. -/
def typesWithoutMark : Nat → PyGccWrapperTypeObject :=
  fun _ => { tp_basicsize := 1, tp_base := none, wrtp_mark := none }

/-- An empty proxy cache. -/
def emptyCache : CacheState :=
  { entries := fun _ => none, nextId := 0 }

theorem my_walker_single (tyOf : Nat → PyGccWrapperTypeObject) (m : Nat)
    (hm : (tyOf 1).wrtp_mark = some m) :
    my_walker tyOf oneProxyState 2 = some [(m, 1)] := by
  rw [my_walker]
  rw [show (2 : Nat) = 1 + 1 from rfl]
  rw [show oneProxyState.wr_next sentinelId = some 1 from rfl]
  rw [show ((some 1 : Option Nat)).isSome = true from rfl]
  simp only [if_true, Option.getD_some, walkLoop_succ]
  rw [show (1 : Nat) = 0 + 1 from rfl]
  simp [walkLoop_succ, oneProxyState, sentinelId, hm, walkLoop]

theorem my_walker_single_nomark (tyOf : Nat → PyGccWrapperTypeObject)
    (hm : (tyOf 1).wrtp_mark = none) :
    my_walker tyOf oneProxyState 2 = none := by
  rw [my_walker]
  rw [show (2 : Nat) = 1 + 1 from rfl]
  rw [show oneProxyState.wr_next sentinelId = some 1 from rfl]
  rw [show ((some 1 : Option Nat)).isSome = true from rfl]
  simp only [if_true, Option.getD_some, walkLoop_succ]
  simp [sentinelId, hm]

/-- Claim C1: when GCC's collector invokes the mark-phase callback
`my_walker`, it walks the whole live-proxy tracker list from head to tail
(sentinel excluded) and invokes, for every proxy in the list, the marking
function stored in that proxy's type object, passing the proxy; no live
proxy is skipped and the sentinel is never passed to a marking function. -/
theorem claim_c1_walker_marks_every_live_proxy
    (tyOf : Nat → PyGccWrapperTypeObject) (s : WrapperState) (l : List Nat)
    (hc : isCycle s l)
    (hm : ∀ x ∈ l, ((tyOf x).wrtp_mark).isSome = true) :
    ∃ calls, my_walker tyOf s (l.length + 1) = some calls ∧
      calls = l.map (fun x => (((tyOf x).wrtp_mark).getD 0, x)) ∧
      sentinelId ∉ calls.map Prod.snd := by
  obtain ⟨hnd, hpath⟩ := hc
  have h0l : sentinelId ∉ l := (List.nodup_cons.mp hnd).1
  have hnext0 : s.wr_next sentinelId = some (l.headD sentinelId) :=
    pathB_next_head s l sentinelId sentinelId hpath
  cases l with
  | nil =>
    refine ⟨[], ?_, by simp, by simp⟩
    simp [my_walker, hnext0, walkLoop]
  | cons b t =>
    simp only [pathB, Bool.and_eq_true, beq_iff_eq] at hpath
    obtain ⟨⟨h0b, hb0⟩, hrest⟩ := hpath
    have hb0' : b ≠ sentinelId := fun h => h0l (by simp [h])
    have h0t : sentinelId ∉ t := fun h => h0l (by simp [h])
    have hwalk := walkLoop_path tyOf s t b hrest hb0' h0t hm
    refine ⟨_, ?_, rfl, ?_⟩
    · rw [my_walker, hnext0]
      rw [show ((some ((b :: t).headD sentinelId) : Option Nat)).isSome = true from rfl]
      simp only [if_true, Option.getD_some, List.headD_cons]
      rw [show (b :: t).length + 1 = t.length + 2 by simp]
      exact hwalk
    · have hsnd : (List.map (fun x => (((tyOf x).wrtp_mark).getD 0, x)) (b :: t)).map
          Prod.snd = b :: t := by
        simp [List.map_map, Function.comp_def]
      rw [hsnd]
      exact h0l

theorem claim_c1_witness :
    ∃ calls,
      my_walker exampleTypeTable exampleTrackerState ([1, 2].length + 1) = some calls ∧
      calls = [1, 2].map (fun x => (((exampleTypeTable x).wrtp_mark).getD 0, x)) ∧
      sentinelId ∉ calls.map Prod.snd :=
  claim_c1_walker_marks_every_live_proxy exampleTypeTable exampleTrackerState [1, 2]
    (by decide) (by decide)

/-- Claim C2: for every non-null identity, repeated calls to the cached
wrapper constructor while a proxy for that identity is alive return the same
proxy object, not a fresh one. -/
theorem claim_c2_cache_returns_same_proxy (c : CacheState) (h : Nat)
    (hh : h ≠ 0) :
    (gcc_python_make_wrapper_tree c h).1.isSome = true ∧
    (gcc_python_make_wrapper_tree ((gcc_python_make_wrapper_tree c h).2) h).1 =
      (gcc_python_make_wrapper_tree c h).1 := by
  unfold gcc_python_make_wrapper_tree gcc_python_lazily_create_wrapper
  rcases he : c.entries h with _ | p
  · simp [hh, he]
  · simp [hh, he]

theorem claim_c2_witness :
    (gcc_python_make_wrapper_tree emptyCache 5).1.isSome = true ∧
    (gcc_python_make_wrapper_tree ((gcc_python_make_wrapper_tree emptyCache 5).2) 5).1 =
      (gcc_python_make_wrapper_tree emptyCache 5).1 :=
  claim_c2_cache_returns_same_proxy emptyCache 5 (by decide)

/-- Claim C3: a host-defined subtype created through the metatype's `tp_new`
has, immediately after creation, the same marking-function pointer as its
declared parent type (a one-time copy at subtype-creation time); hence a
subtype created without explicitly installing a marking function still marks
its wrapped node when walked. -/
theorem claim_c3_subtype_inherits_wrtp_mark
    (metaBasicsize wrapperTypeSize : Nat) (env : Nat → PyGccWrapperTypeObject)
    (baseId newId : Nat) (h : wrapperTypeSize ≤ metaBasicsize) :
    ∃ env',
      gcc_python_wrapper_meta_tp_new metaBasicsize wrapperTypeSize env baseId newId
        = some env' ∧
      (env' newId).wrtp_mark = (env baseId).wrtp_mark ∧
      ∀ m, (env baseId).wrtp_mark = some m →
        my_walker (fun _ => env' newId) oneProxyState 2 = some [(m, 1)] := by
  refine ⟨fun x =>
      if x = newId then
        { tp_basicsize := (env baseId).tp_basicsize
          tp_base := some baseId
          wrtp_mark := (env baseId).wrtp_mark }
      else env x, ?_, ?_, ?_⟩
  · simp [gcc_python_wrapper_meta_tp_new, pyType_Type_tp_new, Nat.not_lt.mpr h]
  · simp
  · intro m hm
    exact my_walker_single _ m (by simp [hm])

theorem claim_c3_witness :
    ∃ env',
      gcc_python_wrapper_meta_tp_new 1 1 exampleTypeTable 0 1 = some env' ∧
      (env' 1).wrtp_mark = (exampleTypeTable 0).wrtp_mark ∧
      ∀ m, (exampleTypeTable 0).wrtp_mark = some m →
        my_walker (fun _ => env' 1) oneProxyState 2 = some [(m, 1)] :=
  claim_c3_subtype_inherits_wrtp_mark 1 1 exampleTypeTable 0 1 (by decide)

/-- Claim C4: equality of tree proxies holds exactly when the wrapped
handles are equal (and NE is its negation); the hash depends only on the
wrapped handle, so equal handles hash equally however the proxies were
constructed; and comparing a proxy with a non-proxy yields NotImplemented in
either argument order — the proxy never answers "equal" to a non-proxy. -/
theorem claim_c4_identity_equality_and_hash (t1 t2 : PyGccTree) (x : Nat)
    (op : PyCmpOp) :
    (gcc_Tree_richcompare (PyObjModel.tree t1) (PyObjModel.tree t2) PyCmpOp.eq =
        PyRichResult.pyBool true ↔ t1.t = t2.t) ∧
    (gcc_Tree_richcompare (PyObjModel.tree t1) (PyObjModel.tree t2) PyCmpOp.ne =
        PyRichResult.pyBool true ↔ t1.t ≠ t2.t) ∧
    (t1.t = t2.t → gcc_Tree_hash t1 = gcc_Tree_hash t2) ∧
    gcc_Tree_richcompare (PyObjModel.tree t1) (PyObjModel.nonTree x) op =
      PyRichResult.notImplemented ∧
    gcc_Tree_richcompare (PyObjModel.nonTree x) (PyObjModel.tree t2) op =
      PyRichResult.notImplemented := by
  refine ⟨?_, ?_, ?_, ?_, ?_⟩
  · constructor
    · intro hcmp
      simp only [gcc_Tree_richcompare, PyRichResult.pyBool.injEq] at hcmp
      exact beq_iff_eq.mp hcmp
    · intro hteq
      simp [gcc_Tree_richcompare, hteq]
  · constructor
    · intro hcmp
      simp only [gcc_Tree_richcompare, PyRichResult.pyBool.injEq] at hcmp
      simpa using hcmp
    · intro htne
      simp [gcc_Tree_richcompare, htne]
  · intro hteq
    simp [gcc_Tree_hash, hteq]
  · rfl
  · rfl

theorem claim_c4_witness :
    gcc_Tree_richcompare (PyObjModel.tree { t := 5 }) (PyObjModel.tree { t := 5 })
      PyCmpOp.eq = PyRichResult.pyBool true ∧
    gcc_Tree_hash { t := 5 } = gcc_Tree_hash { t := 5 } ∧
    gcc_Tree_richcompare (PyObjModel.tree { t := 5 }) (PyObjModel.nonTree 3)
      PyCmpOp.eq = PyRichResult.notImplemented := by
  have h := claim_c4_identity_equality_and_hash { t := 5 } { t := 5 } 3 PyCmpOp.eq
  exact ⟨h.1.mpr rfl, h.2.2.1 rfl, h.2.2.2.1⟩

/-- Claim C5: the lifecycle tracker is a circular doubly-linked list anchored
at the sentinel (never itself a proxy): starting from the initial
sentinel-only state, any well-formed sequence of track/untrack events runs
without assertion failures, every operation preserves the circular-list
invariant, and the list holds exactly the proxies that have been tracked and
not yet untracked, with each `track` inserting at the tail (immediately
before the sentinel) and each `untrack` splicing out via the proxy's own
links. -/
theorem claim_c5_tracker_circular_list_invariant (es : List TrackerEvent)
    (hwf : wfEvents es [] = true) :
    ∃ s', applyEvents es initWrapperState = some s' ∧
      isCycle s' (liveAfter es []) :=
  applyEvents_isCycle es [] initWrapperState (by decide) hwf

theorem claim_c5_witness :
    ∃ s',
      applyEvents
        [TrackerEvent.track 1, TrackerEvent.track 2, TrackerEvent.untrack 1]
        initWrapperState = some s' ∧
      isCycle s'
        (liveAfter
          [TrackerEvent.track 1, TrackerEvent.track 2, TrackerEvent.untrack 1]
          []) :=
  claim_c5_tracker_circular_list_invariant
    [TrackerEvent.track 1, TrackerEvent.track 2, TrackerEvent.untrack 1]
    (by decide)

/-- Claim C6: `untrack` requires the proxy's reference count to be zero;
calling it (or `dealloc`) with a nonzero reference count hits the
assertion-style fatal check (modelled as `none`) before any list mutation,
rather than silently corrupting the list. -/
theorem claim_c6_untrack_asserts_zero_refcount (refcnt obj : Nat)
    (s : WrapperState) (h : refcnt ≠ 0) :
    gcc_python_wrapper_untrack refcnt obj s = none ∧
    gcc_python_wrapper_dealloc refcnt obj s = none := by
  constructor
  · simp [gcc_python_wrapper_untrack, h]
  · simp [gcc_python_wrapper_dealloc, h]

theorem claim_c6_witness :
    gcc_python_wrapper_untrack 1 1 exampleTrackerState = none ∧
    gcc_python_wrapper_dealloc 1 1 exampleTrackerState = none :=
  claim_c6_untrack_asserts_zero_refcount 1 1 exampleTrackerState (by decide)

/-- Claim C7: constructing a tree wrapper for the NULL tree returns the host
runtime's "no value" sentinel (Py_None), not a proxy and not an error,
whatever the type-resolution table says and whether or not allocation would
succeed. -/
theorem claim_c7_null_tree_resolves_to_pyNone (typeFor : Nat → Option Nat)
    (allocOk : Bool) :
    real_make_tree_wrapper typeFor allocOk 0 = MakeWrapperResult.pyNone := rfl

/-- Claim C8 counterexample: with a parent type that has no marking function
installed, `gcc_python_wrapper_meta_tp_new` does NOT fail: it returns a new
type object (whose `wrtp_mark` is the copied NULL), refuting "subtype
creation fails fatally via an assertion at subtype-creation time". -/
theorem claim_c8_counterexample :
    (gcc_python_wrapper_meta_tp_new 1 1 typesWithoutMark 0 1).map
      (fun e => (e 1).wrtp_mark) = some none := rfl

/-- Claim C8 amended: if the declared parent has no marking function,
subtype creation nonetheless succeeds, copying the NULL marking function
into the subtype; the missing-marking-function condition is caught only
later, by the `assert(wrtp_mark)` in the mark-phase walker, when a proxy of
the subtype is walked. -/
theorem claim_c8_amended_assert_fires_at_walk_time
    (metaBasicsize wrapperTypeSize : Nat) (env : Nat → PyGccWrapperTypeObject)
    (baseId newId : Nat) (h : wrapperTypeSize ≤ metaBasicsize)
    (hnm : (env baseId).wrtp_mark = none) :
    ∃ env',
      gcc_python_wrapper_meta_tp_new metaBasicsize wrapperTypeSize env baseId newId
        = some env' ∧
      (env' newId).wrtp_mark = none ∧
      my_walker (fun _ => env' newId) oneProxyState 2 = none := by
  refine ⟨fun x =>
      if x = newId then
        { tp_basicsize := (env baseId).tp_basicsize
          tp_base := some baseId
          wrtp_mark := (env baseId).wrtp_mark }
      else env x, ?_, ?_, ?_⟩
  · simp [gcc_python_wrapper_meta_tp_new, pyType_Type_tp_new, Nat.not_lt.mpr h]
  · simp [hnm]
  · exact my_walker_single_nomark _ (by simp [hnm])

theorem claim_c8_amended_witness :
    ∃ env',
      gcc_python_wrapper_meta_tp_new 1 1 typesWithoutMark 0 1 = some env' ∧
      (env' 1).wrtp_mark = none ∧
      my_walker (fun _ => env' 1) oneProxyState 2 = none :=
  claim_c8_amended_assert_fires_at_walk_time 1 1 typesWithoutMark 0 1
    (by decide) (by decide)

/-- Claim C9 counterexample: an anonymous declaration with uid 42 renders as
"gcc.ParmDecl(42)" — the uid in plain decimal — not as "gcc.ParmDecl(#42)"
with a hash sign as the claim states. -/
theorem claim_c9_counterexample :
    gcc_Declaration_repr "gcc.ParmDecl" true { declName := none, declUid := 42 } =
      some "gcc.ParmDecl(42)" ∧
    ("gcc.ParmDecl(42)" : String) ≠ "gcc.ParmDecl(#42)" := by
  constructor
  · rfl
  · decide

/-- Claim C9 amended: the constructor-style rendering of a declaration proxy
is TypeName('identifier') when the declaration has a name, and
TypeName(uid) — the type name followed by the declaration's uid in decimal,
with no '#' prefix — when it is anonymous. -/
theorem claim_c9_amended_decl_repr_formats (tpName : String) (d : DeclInfo)
    (nm : String) :
    (d.declName = some nm →
      gcc_Declaration_repr tpName true d =
        some (tpName ++ "(\x27" ++ nm ++ "\x27)")) ∧
    (d.declName = none →
      gcc_Declaration_repr tpName true d =
        some (tpName ++ "(" ++ toString d.declUid ++ ")")) := by
  constructor
  · intro h
    simp [gcc_Declaration_repr, h]
  · intro h
    simp [gcc_Declaration_repr, h]

theorem claim_c9_amended_witness :
    gcc_Declaration_repr "gcc.FunctionDecl" true
        { declName := some "foo", declUid := 1 } =
      some ("gcc.FunctionDecl" ++ "(\x27" ++ "foo" ++ "\x27)") ∧
    gcc_Declaration_repr "gcc.ParmDecl" true { declName := none, declUid := 42 } =
      some ("gcc.ParmDecl" ++ "(" ++ toString (42 : Nat) ++ ")") :=
  ⟨(claim_c9_amended_decl_repr_formats "gcc.FunctionDecl"
      { declName := some "foo", declUid := 1 } "foo").1 rfl,
   (claim_c9_amended_decl_repr_formats "gcc.ParmDecl"
      { declName := none, declUid := 42 } "foo").2 rfl⟩

/-- Claim C10: the force-collection operation saves `ggc_force_collect`,
runs the collection with the flag set to true, and restores the saved value,
so the flag as observed by the caller is unchanged — both for `force_gcc_gc`
and for the Python-level `gcc_python__force_garbage_collection`. -/
theorem claim_c10_force_collect_flag_restored (g : GgcState) :
    (force_gcc_gc g).ggc_force_collect = g.ggc_force_collect ∧
    (force_gcc_gc g).collect_log = g.collect_log ++ [true] ∧
    ((gcc_python__force_garbage_collection g).2).ggc_force_collect =
      g.ggc_force_collect :=
  ⟨rfl, rfl, rfl⟩
